import Mathlib

/-!
Verification of the spherical point sampler of `getStarfield.js` and its
instantiation in `main.js` (Animated Earth, Three.js).

Embedding conventions:
- JavaScript numbers are idealized as real numbers (`ℝ`); the `Float32Array`
  storage is idealized as a flat real-valued list, laid out exactly as the
  source writes it (point `i` at flat indices `3i`, `3i+1`, `3i+2`).
- The ambient random source (`Math.random()`) is modeled as an explicit
  injected stream `rng : ℕ → ℝ` of draws, consumed in source order: the
  loop body of iteration `i` draws `rng (3i)` for `theta`, `rng (3i+1)`
  for `phi`, and `rng (3i+2)` for the radial jitter. A stream is valid
  when every draw lies in `[0, 1)`, as `Math.random()` guarantees.
- `new Float32Array(numStars * 3)` follows ECMAScript typed-array
  semantics: a negative length makes the constructor throw a `RangeError`,
  so `getStarfield` takes an integer count and returns `Except`, with the
  error branch for negative counts.
-/

/-- A 3D point with real coordinates, the idealization of one star position. -/
structure Vec3 where
  x : ℝ
  y : ℝ
  z : ℝ

/-- A random stream is valid when every draw lies in `[0, 1)`,
matching the contract of `Math.random()`. -/
def ValidStream (rng : ℕ → ℝ) : Prop :=
  ∀ j, 0 ≤ rng j ∧ rng j < 1

/-- Source line `const theta = Math.random() * 2 * Math.PI`, with the draw of
iteration `i` being stream element `3i` (first draw of the loop body). -/
noncomputable def starTheta (rng : ℕ → ℝ) (i : ℕ) : ℝ :=
  rng (3 * i) * 2 * Real.pi

/-- Source line `const phi = Math.acos(2 * Math.random() - 1)`, with the draw
of iteration `i` being stream element `3i + 1` (second draw of the loop body). -/
noncomputable def starPhi (rng : ℕ → ℝ) (i : ℕ) : ℝ :=
  Real.arccos (2 * rng (3 * i + 1) - 1)

/-- The polar-angle transform `u ↦ acos(2u - 1)` applied by the source to a
uniform draw `u`. -/
noncomputable def phiTransform (u : ℝ) : ℝ :=
  Real.arccos (2 * u - 1)

/-- Source line `const distance = radius * (0.8 + 0.2 * Math.random())`, with
the draw of iteration `i` being stream element `3i + 2` (third draw). -/
noncomputable def starDistance (radius : ℝ) (rng : ℕ → ℝ) (i : ℕ) : ℝ :=
  radius * (0.8 + 0.2 * rng (3 * i + 2))

/-- The point computed by iteration `i` of the loop in `getStarfield.js`:
`x = distance * sin(phi) * cos(theta)`, `y = distance * sin(phi) * sin(theta)`,
`z = distance * cos(phi)`. -/
noncomputable def starPoint (radius : ℝ) (rng : ℕ → ℝ) (i : ℕ) : Vec3 :=
  { x := starDistance radius rng i * Real.sin (starPhi rng i) * Real.cos (starTheta rng i)
    y := starDistance radius rng i * Real.sin (starPhi rng i) * Real.sin (starTheta rng i)
    z := starDistance radius rng i * Real.cos (starPhi rng i) }

/-- The flat `starPositions` buffer after the loop: for each `i < numStars`,
the triple of coordinates of `starPoint i` is stored at flat indices
`3i`, `3i+1`, `3i+2`, in generation order. -/
noncomputable def starPositions (numStars : ℕ) (radius : ℝ) (rng : ℕ → ℝ) : List ℝ :=
  (List.range numStars).flatMap fun i =>
    [(starPoint radius rng i).x, (starPoint radius rng i).y, (starPoint radius rng i).z]

/-- `getStarfield` with explicit parameters: allocates `Float32Array(numStars*3)`
(which throws `RangeError` for a negative length, i.e. for `numStars < 0`),
runs the generation loop, and returns the filled position buffer. The
geometry/material wrapping is rendering-layer glue carrying no further data. -/
noncomputable def getStarfield (numStars : ℤ) (radius : ℝ) (rng : ℕ → ℝ) :
    Except String (List ℝ) :=
  if numStars < 0 then
    Except.error "RangeError: Invalid typed array length"
  else
    Except.ok (starPositions numStars.toNat radius rng)

/-- The optional argument object of `getStarfield({ numStars = 10, radius = 25 } = {})`:
both fields optional, and the whole object optional. -/
structure StarfieldOpts where
  numStars : Option ℤ := none
  radius : Option ℝ := none

/-- `getStarfield` as called in JS: destructuring defaults fill in
`numStars = 10` and `radius = 25` when the argument object or its fields
are omitted. -/
noncomputable def getStarfieldJS (opts : Option StarfieldOpts) (rng : ℕ → ℝ) :
    Except String (List ℝ) :=
  let o := opts.getD {}
  getStarfield (o.numStars.getD 10) (o.radius.getD 25) rng

/-- Euclidean distance of a point from the origin. -/
noncomputable def dist3 (p : Vec3) : ℝ :=
  Real.sqrt (p.x ^ 2 + p.y ^ 2 + p.z ^ 2)

/-- Source line `const stars = 500` in `main.js`. -/
def mainStars : ℕ := 500

/-- `const starsX_Low = getStarfield({ numStars: stars, radius: 500 })`: the
first call at startup, consuming the first `3 * 500` ambient draws. -/
noncomputable def starsX_Low (rng : ℕ → ℝ) : Except String (List ℝ) :=
  getStarfield (mainStars : ℤ) 500 rng

/-- `const starsX_Med = getStarfield({ numStars: stars, radius: 750 })`: the
second call at startup, consuming the next `3 * 500` ambient draws. -/
noncomputable def starsX_Med (rng : ℕ → ℝ) : Except String (List ℝ) :=
  getStarfield (mainStars : ℤ) 750 fun j => rng (3 * mainStars + j)

/-- `const starsX_High = getStarfield({ numStars: stars, radius: 1000 })`: the
third call at startup, consuming the next `3 * 500` ambient draws. -/
noncomputable def starsX_High (rng : ℕ → ℝ) : Except String (List ℝ) :=
  getStarfield (mainStars : ℤ) 1000 fun j => rng (6 * mainStars + j)

/-- `starsGroup.add(starsX_Low, starsX_Med, starsX_High)`: the three starfield
layers built at startup, in order. -/
noncomputable def starsGroup (rng : ℕ → ℝ) : List (Except String (List ℝ)) :=
  [starsX_Low rng, starsX_Med rng, starsX_High rng]

/-- The radii of the three layers as written in `main.js`. -/
noncomputable def mainRadii : List ℝ :=
  [500, 750, 1000]

/-! Helper lemmas about the flat position buffer. -/

theorem starPositions_zero (radius : ℝ) (rng : ℕ → ℝ) :
    starPositions 0 radius rng = [] := rfl

theorem starPositions_succ (n : ℕ) (radius : ℝ) (rng : ℕ → ℝ) :
    starPositions (n + 1) radius rng =
      starPositions n radius rng ++
        [(starPoint radius rng n).x, (starPoint radius rng n).y, (starPoint radius rng n).z] := by
  simp [starPositions, List.range_succ]

theorem starPositions_length (n : ℕ) (radius : ℝ) (rng : ℕ → ℝ) :
    (starPositions n radius rng).length = 3 * n := by
  induction n with
  | zero => rfl
  | succ m ih =>
      rw [starPositions_succ, List.length_append, ih]
      simp
      ring

theorem starPositions_getElem (n : ℕ) (radius : ℝ) (rng : ℕ → ℝ) (i : ℕ) (hi : i < n) :
    (starPositions n radius rng)[3 * i]? = some (starPoint radius rng i).x ∧
    (starPositions n radius rng)[3 * i + 1]? = some (starPoint radius rng i).y ∧
    (starPositions n radius rng)[3 * i + 2]? = some (starPoint radius rng i).z := by
  induction n with
  | zero => omega
  | succ m ih =>
      rw [starPositions_succ]
      rcases Nat.lt_succ_iff_lt_or_eq.mp hi with h | h
      · have hlen := starPositions_length m radius rng
        refine ⟨?_, ?_, ?_⟩ <;>
        · rw [List.getElem?_append_left (by omega)]
          simp [ih h]
      · subst h
        have hlen := starPositions_length i radius rng
        refine ⟨?_, ?_, ?_⟩ <;>
        · rw [List.getElem?_append_right (by omega)]
          rw [hlen]
          norm_num

/-! Helper lemmas about the distance of a generated point from the origin. -/

theorem starPoint_sq_sum (radius : ℝ) (rng : ℕ → ℝ) (i : ℕ) :
    (starPoint radius rng i).x ^ 2 + (starPoint radius rng i).y ^ 2 +
      (starPoint radius rng i).z ^ 2 = starDistance radius rng i ^ 2 := by
  simp only [starPoint]
  linear_combination
    (starDistance radius rng i * Real.sin (starPhi rng i)) ^ 2 *
      Real.sin_sq_add_cos_sq (starTheta rng i) +
    starDistance radius rng i ^ 2 * Real.sin_sq_add_cos_sq (starPhi rng i)

theorem dist3_starPoint (radius : ℝ) (rng : ℕ → ℝ) (i : ℕ) :
    dist3 (starPoint radius rng i) = |starDistance radius rng i| := by
  rw [dist3, starPoint_sq_sum, Real.sqrt_sq_eq_abs]

theorem starDistance_bounds (radius : ℝ) (hr : 0 < radius) (rng : ℕ → ℝ)
    (hv : ValidStream rng) (i : ℕ) :
    0.8 * radius ≤ starDistance radius rng i ∧ starDistance radius rng i < radius := by
  obtain ⟨h0, h1⟩ := hv (3 * i + 2)
  unfold starDistance
  constructor <;> nlinarith

theorem starDistance_nonneg (radius : ℝ) (hr : 0 ≤ radius) (rng : ℕ → ℝ)
    (hv : ∀ j, 0 ≤ rng j) (i : ℕ) :
    0 ≤ starDistance radius rng i := by
  have := hv (3 * i + 2)
  unfold starDistance
  nlinarith

/-! Helper lemmas: the output depends only on the draws actually consumed. -/

theorem starPoint_congr (radius : ℝ) (rng rng' : ℕ → ℝ) (i : ℕ)
    (h0 : rng (3 * i) = rng' (3 * i)) (h1 : rng (3 * i + 1) = rng' (3 * i + 1))
    (h2 : rng (3 * i + 2) = rng' (3 * i + 2)) :
    starPoint radius rng i = starPoint radius rng' i := by
  unfold starPoint starTheta starPhi starDistance
  rw [h0, h1, h2]

theorem starPositions_congr (n : ℕ) (radius : ℝ) (rng rng' : ℕ → ℝ)
    (h : ∀ j, j < 3 * n → rng j = rng' j) :
    starPositions n radius rng = starPositions n radius rng' := by
  unfold starPositions
  apply List.flatMap_congr
  intro x hx
  have hx2 := List.mem_range.mp hx
  rw [starPoint_congr radius rng rng' x (h _ (by omega)) (h _ (by omega)) (h _ (by omega))]

theorem getStarfield_congr (count : ℤ) (radius : ℝ) (rng rng' : ℕ → ℝ)
    (h : ∀ j, j < 3 * count.toNat → rng j = rng' j) :
    getStarfield count radius rng = getStarfield count radius rng' := by
  unfold getStarfield
  by_cases hc : count < 0
  · rw [if_pos hc, if_pos hc]
  · rw [if_neg hc, if_neg hc, starPositions_congr count.toNat radius rng rng' h]

/-- C1: for every count ≥ 0, `getStarfield` returns a point cloud of exactly
`count` 3D points in generation order, point `i` stored at flat indices
`3i`, `3i+1`, `3i+2`; `count = 0` yields the empty sequence and `count = 1`
yields exactly one point. -/
theorem getStarfield_count_points (count : ℕ) (radius : ℝ) (rng : ℕ → ℝ) :
    getStarfield (count : ℤ) radius rng = Except.ok (starPositions count radius rng) ∧
    (starPositions count radius rng).length = 3 * count ∧
    (∀ i, i < count →
      (starPositions count radius rng)[3 * i]? = some (starPoint radius rng i).x ∧
      (starPositions count radius rng)[3 * i + 1]? = some (starPoint radius rng i).y ∧
      (starPositions count radius rng)[3 * i + 2]? = some (starPoint radius rng i).z) ∧
    starPositions 0 radius rng = [] ∧
    starPositions 1 radius rng =
      [(starPoint radius rng 0).x, (starPoint radius rng 0).y, (starPoint radius rng 0).z] := by
  refine ⟨?_, starPositions_length count radius rng,
    fun i hi => starPositions_getElem count radius rng i hi, rfl, ?_⟩
  · rw [getStarfield, if_neg (by omega)]
    norm_num
  · rw [show (1 : ℕ) = 0 + 1 from rfl, starPositions_succ, starPositions_zero]
    rfl

/-- C1 witness: instantiation at count = 1, radius = 25, the constant-zero
stream, and point index 0. -/
theorem getStarfield_count_points_witness :
    getStarfield (1 : ℤ) 25 (fun _ => 0) = Except.ok (starPositions 1 25 fun _ => 0) ∧
    (starPositions 1 25 (fun _ => 0))[3 * 0]? = some (starPoint 25 (fun _ => 0) 0).x :=
  ⟨(getStarfield_count_points 1 25 fun _ => 0).1,
    ((getStarfield_count_points 1 25 fun _ => 0).2.2.1 0 (by norm_num)).1⟩

/-- C3: for each generated point, with the three uniform draws consumed in the
order theta, phi, jitter, the sampler computes `theta = u * 2π`,
`phi = acos(2u - 1)`, `d = radius * (0.8 + 0.2u)`, and stores exactly the
triple `(d sin φ cos θ, d sin φ sin θ, d cos φ)` at flat indices
`3i`, `3i+1`, `3i+2`. -/
theorem starPoint_stored_formula (radius : ℝ) (rng : ℕ → ℝ) (count i : ℕ) (hi : i < count) :
    (starPositions count radius rng)[3 * i]? =
      some (radius * (0.8 + 0.2 * rng (3 * i + 2)) *
        Real.sin (Real.arccos (2 * rng (3 * i + 1) - 1)) *
        Real.cos (rng (3 * i) * (2 * Real.pi))) ∧
    (starPositions count radius rng)[3 * i + 1]? =
      some (radius * (0.8 + 0.2 * rng (3 * i + 2)) *
        Real.sin (Real.arccos (2 * rng (3 * i + 1) - 1)) *
        Real.sin (rng (3 * i) * (2 * Real.pi))) ∧
    (starPositions count radius rng)[3 * i + 2]? =
      some (radius * (0.8 + 0.2 * rng (3 * i + 2)) *
        Real.cos (Real.arccos (2 * rng (3 * i + 1) - 1))) := by
  obtain ⟨h1, h2, h3⟩ := starPositions_getElem count radius rng i hi
  rw [h1, h2, h3]
  simp only [starPoint, starTheta, starPhi, starDistance, mul_assoc]
  exact ⟨trivial, trivial, trivial⟩

/-- C3 witness: instantiation at count = 1, point index 0, radius = 25, the
constant-zero stream. -/
theorem starPoint_stored_formula_witness :
    (starPositions 1 25 (fun _ => 0))[3 * 0 + 2]? =
      some ((25 : ℝ) * (0.8 + 0.2 * 0) * Real.cos (Real.arccos (2 * 0 - 1))) :=
  (starPoint_stored_formula 25 (fun _ => 0) 1 0 (by norm_num)).2.2

/-- C5: with the random source modeled as an injected stream of draws,
`getStarfield` is deterministic: identical parameters and identical streams of
consumed draws produce identical outputs. -/
theorem getStarfield_deterministic (count : ℤ) (radius : ℝ) (rng rng' : ℕ → ℝ)
    (h : ∀ j, j < 3 * count.toNat → rng j = rng' j) :
    getStarfield count radius rng = getStarfield count radius rng' :=
  getStarfield_congr count radius rng rng' h

/-- C5 witness: two streams that agree on the three draws consumed for one
point (but differ beyond them) produce the same output. -/
theorem getStarfield_deterministic_witness :
    (∀ j, j < 3 * (1 : ℤ).toNat →
      (fun k : ℕ => if k < 3 then (0 : ℝ) else 1) j = (fun _ : ℕ => (0 : ℝ)) j) ∧
    getStarfield 1 25 (fun k : ℕ => if k < 3 then (0 : ℝ) else 1) =
      getStarfield 1 25 (fun _ : ℕ => (0 : ℝ)) := by
  have h : ∀ j, j < 3 * (1 : ℤ).toNat →
      (fun k : ℕ => if k < 3 then (0 : ℝ) else 1) j = (fun _ : ℕ => (0 : ℝ)) j := by
    intro j hj
    simp only
    rw [if_pos (by omega)]
  exact ⟨h, getStarfield_deterministic 1 25 _ _ h⟩

/-- C7: with the argument object or its fields omitted, `getStarfield` behaves
exactly as if called with `numStars = 10` and `radius = 25`. -/
theorem getStarfield_defaults (rng : ℕ → ℝ) :
    getStarfieldJS none rng = getStarfield 10 25 rng ∧
    getStarfieldJS (some {}) rng = getStarfield 10 25 rng ∧
    (∀ n : ℤ, getStarfieldJS (some { numStars := some n }) rng = getStarfield n 25 rng) ∧
    (∀ r : ℝ, getStarfieldJS (some { radius := some r }) rng = getStarfield 10 r rng) :=
  ⟨rfl, rfl, fun _ => rfl, fun _ => rfl⟩

/-- C2: for every configured radius R > 0 and every generated point, the
point's Euclidean distance from the origin lies within `[0.8R, 1.0R]`. -/
theorem starfield_shell_invariant (radius : ℝ) (hr : 0 < radius) (rng : ℕ → ℝ)
    (hv : ValidStream rng) (i : ℕ) :
    0.8 * radius ≤ dist3 (starPoint radius rng i) ∧
    dist3 (starPoint radius rng i) ≤ 1.0 * radius := by
  obtain ⟨hlo, hhi⟩ := starDistance_bounds radius hr rng hv i
  have hd : 0 ≤ starDistance radius rng i := le_trans (by nlinarith) hlo
  rw [dist3_starPoint, abs_of_nonneg hd]
  exact ⟨hlo, by nlinarith⟩

/-- C2 witness: instantiation at radius = 25, the constant-zero stream,
point index 0. -/
theorem starfield_shell_invariant_witness :
    (0 : ℝ) < 25 ∧ ValidStream (fun _ => 0) ∧
    (0.8 * 25 ≤ dist3 (starPoint 25 (fun _ => 0) 0) ∧
      dist3 (starPoint 25 (fun _ => 0) 0) ≤ 1.0 * 25) :=
  ⟨by norm_num, fun j => by norm_num,
    starfield_shell_invariant 25 (by norm_num) (fun _ => 0) (fun j => by norm_num) 0⟩

/-- C9: in exact real arithmetic, each generated point's Euclidean distance
from the origin equals exactly the drawn distance
`d = radius * (0.8 + 0.2 * v)`, not merely lying within the shell band. -/
theorem starfield_exact_distance (radius : ℝ) (hr : 0 ≤ radius) (rng : ℕ → ℝ)
    (hv : ValidStream rng) (i : ℕ) :
    dist3 (starPoint radius rng i) = starDistance radius rng i ∧
    starDistance radius rng i = radius * (0.8 + 0.2 * rng (3 * i + 2)) := by
  have hd := starDistance_nonneg radius hr rng (fun j => (hv j).1) i
  exact ⟨by rw [dist3_starPoint, abs_of_nonneg hd], rfl⟩

/-- C9 witness: instantiation at radius = 10, the constant-zero stream,
point index 0. -/
theorem starfield_exact_distance_witness :
    (0 : ℝ) ≤ 10 ∧ ValidStream (fun _ => 0) ∧
    dist3 (starPoint 10 (fun _ => 0) 0) = starDistance 10 (fun _ => 0) 0 :=
  ⟨by norm_num, fun j => by norm_num,
    (starfield_exact_distance 10 (by norm_num) (fun _ => 0) (fun j => by norm_num) 0).1⟩

/-- C4: the polar angle is produced by `phi = acos(2u - 1)` with `u` uniform
on `[0,1)`, so `cos(phi) = 2u - 1`; consequently the draws landing in the
equal-area latitude band with `cos phi ∈ [a, b]` are exactly those in an
interval of `u` of length `(b - a)/2`, the band's fraction of the sphere's
surface area — the measure-preservation fact behind large-sample convergence
of band counts to area fractions. -/
theorem starPhi_equal_area (rng : ℕ → ℝ) (i : ℕ)
    (hu0 : 0 ≤ rng (3 * i + 1)) (hu1 : rng (3 * i + 1) ≤ 1)
    (a b : ℝ) (ha : -1 ≤ a) (hb : b ≤ 1) (_hab : a ≤ b) :
    starPhi rng i = phiTransform (rng (3 * i + 1)) ∧
    Real.cos (starPhi rng i) = 2 * rng (3 * i + 1) - 1 ∧
    {u : ℝ | 0 ≤ u ∧ u ≤ 1 ∧ Real.cos (phiTransform u) ∈ Set.Icc a b} =
      Set.Icc ((a + 1) / 2) ((b + 1) / 2) ∧
    MeasureTheory.volume (Set.Icc ((a + 1) / 2) ((b + 1) / 2)) =
      ENNReal.ofReal ((b - a) / 2) := by
  refine ⟨rfl, ?_, ?_, ?_⟩
  · exact Real.cos_arccos (by linarith) (by linarith)
  · ext u
    simp only [Set.mem_setOf_eq, Set.mem_Icc, phiTransform]
    constructor
    · rintro ⟨h0, h1, hcos⟩
      rw [Real.cos_arccos (by linarith) (by linarith)] at hcos
      exact ⟨by linarith [hcos.1], by linarith [hcos.2]⟩
    · rintro ⟨hl, hr⟩
      have h0 : 0 ≤ u := by linarith
      have h1 : u ≤ 1 := by linarith
      rw [Real.cos_arccos (by linarith) (by linarith)]
      exact ⟨h0, h1, by linarith, by linarith⟩
  · rw [Real.volume_Icc]
    congr 1
    ring

/-- C4 witness: instantiation at the constant one-half stream, point index 0,
band `cos phi ∈ [-1, 0]` (the southern hemisphere, half the surface area). -/
theorem starPhi_equal_area_witness :
    (0 : ℝ) ≤ (1 : ℝ) / 2 ∧
    Real.cos (starPhi (fun _ => 1 / 2) 0) = 2 * (1 / 2) - 1 ∧
    MeasureTheory.volume (Set.Icc (((-1 : ℝ) + 1) / 2) (((0 : ℝ) + 1) / 2)) =
      ENNReal.ofReal (((0 : ℝ) - (-1)) / 2) := by
  have h := starPhi_equal_area (fun _ => 1 / 2) 0 (by norm_num) (by norm_num)
    (-1) 0 (by norm_num) (by norm_num) (by norm_num)
  exact ⟨by norm_num, h.2.1, h.2.2.2⟩

/-! Helper lemma: distance in terms of the absolute value of the radius. -/

theorem dist3_starPoint_abs (radius : ℝ) (rng : ℕ → ℝ) (hv : ValidStream rng) (i : ℕ) :
    dist3 (starPoint radius rng i) = |radius| * (0.8 + 0.2 * rng (3 * i + 2)) := by
  rw [dist3_starPoint]
  unfold starDistance
  have h0 := (hv (3 * i + 2)).1
  rw [abs_mul, abs_of_nonneg (by nlinarith : (0 : ℝ) ≤ 0.8 + 0.2 * rng (3 * i + 2))]

/-- C10: `getStarfield` applies no check to radius: for radius = 0 it returns
`numStars` points all exactly at the origin without signaling an error; for
radius < 0 the points' distances from the origin lie in
`[0.8|radius|, |radius|)` with coordinates mirrored through the origin; so
the shell invariant holds with `|radius|` for every nonzero radius. -/
theorem getStarfield_radius_unchecked (rng : ℕ → ℝ) (hv : ValidStream rng)
    (radius : ℝ) (n : ℕ) :
    getStarfield (n : ℤ) 0 rng = Except.ok (starPositions n 0 rng) ∧
    (∀ i, starPoint 0 rng i = ⟨0, 0, 0⟩) ∧
    (radius < 0 → ∀ i,
      0.8 * |radius| ≤ dist3 (starPoint radius rng i) ∧
      dist3 (starPoint radius rng i) < |radius| ∧
      (starPoint radius rng i).x = -(starPoint (-radius) rng i).x ∧
      (starPoint radius rng i).y = -(starPoint (-radius) rng i).y ∧
      (starPoint radius rng i).z = -(starPoint (-radius) rng i).z) ∧
    (radius ≠ 0 → ∀ i,
      0.8 * |radius| ≤ dist3 (starPoint radius rng i) ∧
      dist3 (starPoint radius rng i) ≤ |radius|) := by
  refine ⟨?_, ?_, ?_, ?_⟩
  · rw [getStarfield, if_neg (by omega)]
    norm_num
  · intro i
    simp [starPoint, starDistance]
  · intro hneg i
    obtain ⟨h0, h1⟩ := hv (3 * i + 2)
    have habs : 0 < |radius| := abs_pos.mpr (ne_of_lt hneg)
    have hd := dist3_starPoint_abs radius rng hv i
    refine ⟨by rw [hd]; nlinarith, by rw [hd]; nlinarith, ?_, ?_, ?_⟩ <;>
    · simp only [starPoint, starDistance]
      ring
  · intro hne i
    obtain ⟨h0, h1⟩ := hv (3 * i + 2)
    have habs : 0 < |radius| := abs_pos.mpr hne
    have hd := dist3_starPoint_abs radius rng hv i
    exact ⟨by rw [hd]; nlinarith, by rw [hd]; nlinarith⟩

/-- C10 witness: instantiation at radius = -2, count = 1, the constant-zero
stream, point index 0. -/
theorem getStarfield_radius_unchecked_witness :
    ValidStream (fun _ => 0) ∧ (-2 : ℝ) < 0 ∧ (-2 : ℝ) ≠ 0 ∧
    (0.8 * |(-2 : ℝ)| ≤ dist3 (starPoint (-2) (fun _ => 0) 0) ∧
      dist3 (starPoint (-2) (fun _ => 0) 0) < |(-2 : ℝ)|) := by
  have h := getStarfield_radius_unchecked (fun _ => 0) (fun j => by norm_num) (-2) 1
  have h3 := h.2.2.1 (by norm_num) 0
  exact ⟨fun j => by norm_num, by norm_num, by norm_num, h3.1, h3.2.1⟩

/-- C6 counterexample: at count = -1 (a non-positive count), `getStarfield`
does not produce a degenerate output: the typed-array allocation rejects the
call with a `RangeError`, so no output list is returned at all. -/
theorem getStarfield_negative_count_rejects :
    getStarfield (-1) 25 (fun _ => 0) =
      Except.error "RangeError: Invalid typed array length" ∧
    ∀ l : List ℝ, getStarfield (-1) 25 (fun _ => 0) ≠ Except.ok l := by
  constructor
  · rw [getStarfield, if_pos (by norm_num)]
  · intro l h
    rw [getStarfield, if_pos (by norm_num)] at h
    exact Except.noConfusion h

/-- C6 amended: for count = 0 or for any radius (in particular radius ≤ 0)
with a nonnegative count, `getStarfield` performs no input validation and
silently produces a defined, possibly degenerate result (empty for count = 0,
all-origin for radius = 0); only a negative count is rejected, by the
typed-array allocation's `RangeError`, not by an explicit parameter check. -/
theorem getStarfield_no_validation (rng : ℕ → ℝ) :
    (∀ radius : ℝ, getStarfield 0 radius rng = Except.ok []) ∧
    (∀ (n : ℕ) (radius : ℝ),
      getStarfield (n : ℤ) radius rng = Except.ok (starPositions n radius rng)) ∧
    (∀ i, starPoint 0 rng i = ⟨0, 0, 0⟩) ∧
    (∀ count : ℤ, count < 0 →
      getStarfield count 25 rng =
        Except.error "RangeError: Invalid typed array length") := by
  refine ⟨?_, ?_, ?_, ?_⟩
  · intro radius
    rw [getStarfield, if_neg (by omega)]
    rfl
  · intro n radius
    rw [getStarfield, if_neg (by omega)]
    norm_num
  · intro i
    simp [starPoint, starDistance]
  · intro count hc
    rw [getStarfield, if_pos hc]

/-- C6 witness: instantiation at count = -2 and the constant-zero stream. -/
theorem getStarfield_no_validation_witness :
    (-2 : ℤ) < 0 ∧
    getStarfield (-2) 25 (fun _ => 0) =
      Except.error "RangeError: Invalid typed array length" :=
  ⟨by norm_num, (getStarfield_no_validation (fun _ => 0)).2.2.2 (-2) (by norm_num)⟩

/-- C8: at startup, `main.js` invokes the sampler exactly three times to
build three starfield layers at pairwise-distinct radii 500, 750, 1000, each
with 500 stars; each layer is a function of its own disjoint segment of the
ambient random stream only, so the three point clouds share no state. -/
theorem startup_three_layers (rng rng' : ℕ → ℝ) :
    (starsGroup rng).length = 3 ∧
    starsGroup rng = [starsX_Low rng, starsX_Med rng, starsX_High rng] ∧
    mainRadii.Pairwise (fun a b => a ≠ b) ∧
    (starsX_Low rng = Except.ok (starPositions mainStars 500 rng) ∧
      (starPositions mainStars 500 rng).length = 3 * mainStars) ∧
    (starsX_Med rng =
        Except.ok (starPositions mainStars 750 fun j => rng (3 * mainStars + j)) ∧
      (starPositions mainStars 750 fun j => rng (3 * mainStars + j)).length =
        3 * mainStars) ∧
    (starsX_High rng =
        Except.ok (starPositions mainStars 1000 fun j => rng (6 * mainStars + j)) ∧
      (starPositions mainStars 1000 fun j => rng (6 * mainStars + j)).length =
        3 * mainStars) ∧
    ((∀ j, j < 3 * mainStars → rng j = rng' j) →
      starsX_Low rng = starsX_Low rng') ∧
    ((∀ j, 3 * mainStars ≤ j → j < 6 * mainStars → rng j = rng' j) →
      starsX_Med rng = starsX_Med rng') ∧
    ((∀ j, 6 * mainStars ≤ j → j < 9 * mainStars → rng j = rng' j) →
      starsX_High rng = starsX_High rng') := by
  refine ⟨rfl, rfl, ?_, ⟨?_, starPositions_length _ _ _⟩,
    ⟨?_, starPositions_length _ _ _⟩, ⟨?_, starPositions_length _ _ _⟩, ?_, ?_, ?_⟩
  · norm_num [mainRadii]
  · rw [starsX_Low, getStarfield, if_neg (by omega)]
    norm_num
  · rw [starsX_Med, getStarfield, if_neg (by omega)]
    norm_num
  · rw [starsX_High, getStarfield, if_neg (by omega)]
    norm_num
  · intro h
    unfold starsX_Low
    exact getStarfield_congr _ _ _ _ fun j hj => h j (by omega)
  · intro h
    unfold starsX_Med
    exact getStarfield_congr _ _ _ _ fun j hj =>
      h (3 * mainStars + j) (by omega) (by omega)
  · intro h
    unfold starsX_High
    exact getStarfield_congr _ _ _ _ fun j hj =>
      h (6 * mainStars + j) (by omega) (by omega)

/-- C8 witness: instantiation at the constant-zero stream for both streams. -/
theorem startup_three_layers_witness :
    (starsGroup (fun _ => 0)).length = 3 ∧
    starsX_Med (fun _ => (0 : ℝ)) = starsX_Med (fun _ => 0) := by
  have h := startup_three_layers (fun _ => (0 : ℝ)) (fun _ => 0)
  exact ⟨h.1, h.2.2.2.2.2.2.2.1 fun j h1 h2 => rfl⟩
